import Mathlib

/-!
Verification of the usvfs-rs binding layer (src/src/lib.rs).

The crate is a thin FFI surface over the native usvfs engine. We embed:
  * the string-marshaling macros `widen!` / `widen_mut!` (UTF-16 encode plus a
    pushed null terminator) as `widen`;
  * each public operation as (a) a "wire" function recording exactly the
    arguments handed to the `extern` engine entry point and (b) a result
    function translating the boolean the engine returns;
  * the `Parameters` setters, with a panicking `expect` modelled as `none`;
  * the engine-side session state (create / connect / disconnect), which is
    not part of this repository, modelled from the spec where a claim needs it.
Machine integers stay as `Nat`; UTF-16 code units are `Nat` values below 2^16.
-/

namespace UsvfsRs

/-- UTF-16 encoding of one Unicode scalar value, as produced by the char
iterator the `widen!` macro collects: one code unit below 0x10000, otherwise
a surrogate pair. -/
def utf16EncodeChar (c : Char) : List Nat :=
  if c.toNat < 0x10000 then
    [c.toNat]
  else
    [0xD800 + (c.toNat - 0x10000) / 0x400, 0xDC00 + (c.toNat - 0x10000) % 0x400]

/-- UTF-16 encoding of a whole string (`str::encode_utf16().collect()`). -/
def utf16Encode (s : List Char) : List Nat :=
  (s.map utf16EncodeChar).flatten

/-- The `widen!` macro: collect the UTF-16 code units of the string into a
vector, then push a single null terminator. `widen_mut!` builds the identical
byte sequence (it only differs in handing out a mutable pointer). -/
def widen (s : List Char) : List Nat :=
  let vector := utf16Encode s
  let vector := vector ++ [0x00]
  vector

/-- What the engine, reading a null-terminated UTF-16 sequence, observes of a
transmitted buffer: the code units before the first 0x0000. -/
def observedByEngine (ws : List Nat) : List Nat :=
  ws.takeWhile (fun u => u != 0)

/-! ### Link flags (source constants) -/

/-- if set, linking fails in case of an error -/
def LINKFLAG_FAILIFEXISTS : Nat := 0x00000001

/-- if set, changes to the source directory after the link operation
will be updated in the virtual fs -/
def LINKFLAG_MONITORCHANGES : Nat := 0x00000002

/-- if set, file creation operations to destination are redirected to the
source -/
def LINKFLAG_CREATETARGET : Nat := 0x00000004

/-- if set, directories are linked recursively -/
def LINKFLAG_RECURSIVE : Nat := 0x00000008

/-- if set, linking fails if the file or directory is skipped -/
def LINKFLAG_FAILIFSKIPPED : Nat := 0x00000010

/-! ### Wire records: the exact arguments handed to the engine -/

/-- Arguments of `usvfsVirtualLinkFile` / `usvfsVirtualLinkDirectoryStatic`:
two null-terminated UTF-16 sequences and the raw flags word. -/
structure LinkWire where
  source : List Nat
  destination : List Nat
  flags : Nat

/-- Wire call made by `virtually_link_file`: both strings pass through
`widen!`, the flags word is forwarded untouched. -/
def virtually_link_file_wire (source destination : List Char) (flags : Nat) : LinkWire :=
  { source := widen source, destination := widen destination, flags := flags }

/-- Wire call made by `virtually_link_directory_static`. -/
def virtually_link_directory_static_wire (source destination : List Char) (flags : Nat) :
    LinkWire :=
  { source := widen source, destination := widen destination, flags := flags }

/-- `virtually_link_file`: the engine (an oracle on the wire call) answers a
boolean; `true` becomes `Ok(())`, `false` becomes `Err(())`. -/
def virtually_link_file (engine : LinkWire → Bool) (source destination : List Char)
    (flags : Nat) : Except Unit Unit :=
  match engine (virtually_link_file_wire source destination flags) with
  | true => Except.ok ()
  | false => Except.error ()

/-- `virtually_link_directory_static`, same boolean translation. -/
def virtually_link_directory_static (engine : LinkWire → Bool)
    (source destination : List Char) (flags : Nat) : Except Unit Unit :=
  match engine (virtually_link_directory_static_wire source destination flags) with
  | true => Except.ok ()
  | false => Except.error ()

/-- Wire call made by `blacklist_executable` via `widen_mut!`. -/
def blacklist_executable_wire (executableName : List Char) : List Nat :=
  widen executableName

/-- Wire call made by `add_skip_file_suffix` via `widen_mut!`. -/
def add_skip_file_suffix_wire (fileSuffix : List Char) : List Nat :=
  widen fileSuffix

/-- Wire call made by `add_skip_directory` via `widen_mut!`. -/
def add_skip_directory_wire (directory : List Char) : List Nat :=
  widen directory

/-- Wire call made by `force_load_library` via `widen_mut!` on both strings. -/
def force_load_library_wire (processName libraryPath : List Char) : List Nat × List Nat :=
  (widen processName, widen libraryPath)

/-! ### Process spawning -/

/-- Arguments of the `usvfsCreateProcessHooked` engine entry point.
Security attributes, startup info and process information are opaque
out-of-line records; we carry them as abstract tokens. `lpEnvironment` is a
nullable pointer: `none` is the null pointer, meaning the parent environment
is inherited. -/
structure SpawnWire where
  lpApplicationName : List Nat
  lpCommandLine : List Nat
  lpProcessAttributes : Nat
  lpThreadAttributes : Nat
  bInheritHandles : Bool
  dwCreationFlags : Nat
  lpEnvironment : Option Nat
  lpCurrentDirectory : List Nat
  lpStartupInfo : Nat
  lpProcessInformation : Nat

/-- Wire call made by `create_process_hooked`: the three strings pass through
`widen!`, the inherit flag is forwarded, and the binding hard-codes creation
flags 0 and a null (`ptr::null_mut()`) environment. The Rust signature has no
environment parameter at all. -/
def create_process_hooked_wire (application_name command_line : List Char)
    (process_attributes thread_attributes : Nat) (inherit_handles : Bool)
    (current_dir : List Char) (startup_information process_information : Nat) : SpawnWire :=
  { lpApplicationName := widen application_name
    lpCommandLine := widen command_line
    lpProcessAttributes := process_attributes
    lpThreadAttributes := thread_attributes
    bInheritHandles := inherit_handles
    dwCreationFlags := 0
    lpEnvironment := none
    lpCurrentDirectory := widen current_dir
    lpStartupInfo := startup_information
    lpProcessInformation := process_information }

/-- `create_process_hooked`: boolean translation of the engine answer. -/
def create_process_hooked (engine : SpawnWire → Bool)
    (application_name command_line : List Char)
    (process_attributes thread_attributes : Nat) (inherit_handles : Bool)
    (current_dir : List Char) (startup_information process_information : Nat) :
    Except Unit Unit :=
  match engine (create_process_hooked_wire application_name command_line
      process_attributes thread_attributes inherit_handles current_dir
      startup_information process_information) with
  | true => Except.ok ()
  | false => Except.error ()

/-! ### Parameters setters

The setters forward to the engine; the two below can panic via `expect`,
which we model as `none` (a panic is NOT a returned error). -/

/-- `CString::new`: fails exactly when the UTF-8 bytes of the string contain
an interior 0 byte, i.e. when the string contains U+0000. -/
def CString_new (s : List Char) : Option (List Char) :=
  if Char.ofNat 0 ∈ s then none else some s

/-- `Parameters::set_instance_name`: `CString::new(name).expect(...)` panics
(modelled `none`) whenever the name contains U+0000; otherwise the setter
returns unit. -/
def set_instance_name (name : List Char) : Option Unit :=
  match CString_new name with
  | none => none
  | some _ => some ()

/-- `Parameters::set_crash_dumps_path`: same `CString::new ... expect`
pattern as `set_instance_name`. -/
def set_crash_dumps_path (path : List Char) : Option Unit :=
  match CString_new path with
  | none => none
  | some _ => some ()

/-- `Parameters::set_process_delay`: `Duration::as_millis()` (a 128-bit
count, here the `Nat` argument) is converted with `try_into()` to a C `int`
(32-bit signed); `expect` panics (modelled `none`) when the count exceeds
2147483647. -/
def set_process_delay (millis : Nat) : Option Int :=
  if millis ≤ 2147483647 then some (millis : Int) else none

/-! ### Session lifecycle

The engine side of create / connect / disconnect is not in this repository
(only the extern declarations and their callers are), so the engine state
transition is modelled from the spec; the boolean-to-Result translation is
from the source. -/

/-- One virtual link held by the Mapping Store. -/
structure LinkRecord where
  source : List Char
  destination : List Char
  flags : Nat
  isDirectory : Bool

/-- Modelled from the spec: the engine state visible to the controlling
process — whether a session is connected, whether hooks are installed in the
calling process, and the Mapping Store contents. -/
structure EngineState where
  connected : Bool
  hooked : Bool
  mappings : List LinkRecord

/-- Modelled from the spec: `usvfsDisconnectVFS` removes hooks if present and
invalidates the connection, leaving the Mapping Store data intact; it is
idempotent and never an error. -/
def usvfsDisconnectVFS (st : EngineState) : EngineState :=
  { st with connected := false, hooked := false }

/-- Modelled from the spec: `usvfsCreateVFS` silently disconnects any prior
session first, then — on engine success `ok` — resets the Mapping Store to
empty and activates the new session; on failure it reports `false` and no
session is connected. -/
def usvfsCreateVFS (ok : Bool) (st : EngineState) : Bool × EngineState :=
  let st := usvfsDisconnectVFS st
  if ok then (true, { st with connected := true, mappings := [] })
  else (false, st)

/-- Modelled from the spec: `usvfsConnectVfs` silently disconnects any prior
session, then attaches to an existing overlay without resetting the Mapping
Store and without installing hooks. -/
def usvfsConnectVfs (ok : Bool) (st : EngineState) : Bool × EngineState :=
  let st := usvfsDisconnectVFS st
  if ok then (true, { st with connected := true })
  else (false, st)

/-- `create_vfs`: translates the boolean of `usvfsCreateVFS` into a Result. -/
def create_vfs (ok : Bool) (st : EngineState) : Except Unit Unit × EngineState :=
  match usvfsCreateVFS ok st with
  | (true, st2) => (Except.ok (), st2)
  | (false, st2) => (Except.error (), st2)

/-- `connect_vfs`: translates the boolean of `usvfsConnectVfs` into a
Result. -/
def connect_vfs (ok : Bool) (st : EngineState) : Except Unit Unit × EngineState :=
  match usvfsConnectVfs ok st with
  | (true, st2) => (Except.ok (), st2)
  | (false, st2) => (Except.error (), st2)

/-- `disconnect_vfs`: calls `usvfsDisconnectVFS` and returns unit. -/
def disconnect_vfs (st : EngineState) : Unit × EngineState :=
  ((), usvfsDisconnectVFS st)

/-! ### Dump and log retrieval -/

/-- Wire call made by `create_vfs_dump`: the engine receives the buffer base
pointer (`buffer.as_mut_ptr()`) and the caller-supplied size pointer — the
buffer length `bufLen` is NOT among the transmitted arguments. Addresses are
modelled as `Nat`. -/
def create_vfs_dump_wire (bufAddr bufLen szAddr : Nat) : Nat × Nat :=
  (bufAddr, szAddr)

/-- `create_vfs_dump`: boolean translation of the engine answer. -/
def create_vfs_dump (ok : Bool) (bufAddr bufLen szAddr : Nat) : Except Unit Unit :=
  match ok with
  | true => Except.ok ()
  | false => Except.error ()

/-- Addresses an engine that writes `sizeVal` bytes starting at the buffer
base would touch. -/
def dumpWriteAddrs (bufAddr sizeVal : Nat) : List Nat :=
  (List.range sizeVal).map (fun i => bufAddr + i)

/-- Addresses belonging to a destination buffer of length `bufLen`. -/
def bufferAddrs (bufAddr bufLen : Nat) : List Nat :=
  (List.range bufLen).map (fun i => bufAddr + i)

/-- `get_log_message (dst, blocking)`: the source passes the engine the buffer
pointer and `&mut dst.len()` — a temporary holding a copy of the slice
length. The engine writes the message size (`engineSize`) into that
temporary, which is then dropped; the boolean result (`engineOk`) is
discarded by `_ =`. The function returns unit, and the caller still sees a
slice of the original length `dstLen`. -/
def get_log_message (dstLen : Nat) (blocking engineOk : Bool) (engineSize : Nat) :
    Unit × Nat :=
  ((), dstLen)

/-! ### Helper lemmas -/

theorem utf16Encode_nil : utf16Encode [] = [] := rfl

theorem utf16Encode_cons (c : Char) (s : List Char) :
    utf16Encode (c :: s) = utf16EncodeChar c ++ utf16Encode s := by
  simp [utf16Encode]

theorem widen_eq (s : List Char) : widen s = utf16Encode s ++ [0] := rfl

theorem utf16EncodeChar_zero (c : Char) (h : c.toNat = 0) :
    utf16EncodeChar c = [0] := by
  simp [utf16EncodeChar, h]

theorem utf16EncodeChar_ne_zero (c : Char) (h : c.toNat ≠ 0) :
    ∀ u ∈ utf16EncodeChar c, u ≠ 0 := by
  intro u hu
  unfold utf16EncodeChar at hu
  by_cases hlt : c.toNat < 0x10000
  · simp [hlt] at hu
    omega
  · simp [hlt] at hu
    rcases hu with h1 | h2 <;> omega

theorem takeWhile_append_all (p : Nat → Bool) (l₁ l₂ : List Nat)
    (h : ∀ a ∈ l₁, p a = true) :
    (l₁ ++ l₂).takeWhile p = l₁ ++ l₂.takeWhile p := by
  induction l₁ with
  | nil => simp
  | cons a l ih =>
    have ha : p a = true := h a (List.mem_cons_self a l)
    simp [List.takeWhile_cons, ha]
    exact ih (fun b hb => h b (List.mem_cons_of_mem a hb))

theorem observedByEngine_widen (s : List Char) :
    observedByEngine (widen s) =
      utf16Encode (s.takeWhile (fun c => c.toNat != 0)) := by
  induction s with
  | nil =>
    simp [observedByEngine, widen, utf16Encode]
  | cons c s ih =>
    by_cases h : c.toNat = 0
    · have hc : utf16EncodeChar c = [0] := utf16EncodeChar_zero c h
      simp [observedByEngine, widen, utf16Encode_cons, hc, List.takeWhile_cons, h,
        utf16Encode_nil]
    · have hne := utf16EncodeChar_ne_zero c h
      have hrw : widen (c :: s) = utf16EncodeChar c ++ widen s := by
        simp [widen, utf16Encode_cons]
      have hall : ∀ a ∈ utf16EncodeChar c, (fun u => u != 0) a = true := by
        intro a ha
        simpa using hne a ha
      calc observedByEngine (widen (c :: s))
          = utf16EncodeChar c ++ observedByEngine (widen s) := by
            rw [hrw]
            exact takeWhile_append_all _ _ _ hall
        _ = utf16EncodeChar c ++ utf16Encode (s.takeWhile (fun c => c.toNat != 0)) := by
            rw [ih]
        _ = utf16Encode ((c :: s).takeWhile (fun c => c.toNat != 0)) := by
            rw [List.takeWhile_cons]
            simp [h, utf16Encode_cons]

/-! ### Claim theorems -/

/-- C1 (counterexample): a false return from the engine inside
`get_log_message` is silently swallowed, not surfaced: with the engine
reporting failure, the caller receives plain unit together with its
untouched slice — exactly what it receives when the engine reports
success. -/
theorem get_log_message_swallows_engine_failure :
    get_log_message 4 false false 9 = ((), 4) ∧
    get_log_message 4 false true 9 = ((), 4) :=
  ⟨rfl, rfl⟩

/-- C1 (amended): create_vfs, connect_vfs, virtually_link_file,
virtually_link_directory_static, create_process_hooked and create_vfs_dump
translate the boolean the engine returns into `Ok(())` / `Err(())` — a unit
error surfaced to the immediate caller, carrying no error kind of the §7
taxonomy — while get_log_message discards the engine boolean entirely and
returns unit regardless of it. -/
theorem boundary_booleans_surfaced_as_unit_errors
    (ok engineOk blocking ihd : Bool) (st : EngineState)
    (eng : LinkWire → Bool) (spawnEng : SpawnWire → Bool)
    (s t d : List Char) (flags pa ta si pinf bufAddr bufLen szAddr dstLen engineSize : Nat) :
    (create_vfs ok st).1 = (if ok then Except.ok () else Except.error ()) ∧
    (connect_vfs ok st).1 = (if ok then Except.ok () else Except.error ()) ∧
    virtually_link_file eng s t flags =
      (if eng (virtually_link_file_wire s t flags) then Except.ok ()
       else Except.error ()) ∧
    virtually_link_directory_static eng s t flags =
      (if eng (virtually_link_directory_static_wire s t flags) then Except.ok ()
       else Except.error ()) ∧
    create_process_hooked spawnEng s t pa ta ihd d si pinf =
      (if spawnEng (create_process_hooked_wire s t pa ta ihd d si pinf) then Except.ok ()
       else Except.error ()) ∧
    create_vfs_dump ok bufAddr bufLen szAddr =
      (if ok then Except.ok () else Except.error ()) ∧
    get_log_message dstLen blocking engineOk engineSize = ((), dstLen) := by
  refine ⟨?_, ?_, ?_, ?_, ?_, ?_, rfl⟩
  · cases ok <;> rfl
  · cases ok <;> rfl
  · cases h : eng (virtually_link_file_wire s t flags) <;>
      simp [virtually_link_file, h]
  · cases h : eng (virtually_link_directory_static_wire s t flags) <;>
      simp [virtually_link_directory_static, h]
  · cases h : spawnEng (create_process_hooked_wire s t pa ta ihd d si pinf) <;>
      simp [create_process_hooked, h]
  · cases ok <;> rfl

/-- C2: every string handed across the boundary by the widening macros is
transmitted as exactly the UTF-16 encoding of the caller string followed by
one appended null terminator, for every marshaled argument of every wire
call. -/
theorem wire_strings_are_utf16_null_terminated (s t d : List Char) (flags : Nat)
    (pa ta si pinf : Nat) (ihd : Bool) :
    (virtually_link_file_wire s t flags).source = utf16Encode s ++ [0] ∧
    (virtually_link_file_wire s t flags).destination = utf16Encode t ++ [0] ∧
    (virtually_link_directory_static_wire s t flags).source = utf16Encode s ++ [0] ∧
    (virtually_link_directory_static_wire s t flags).destination = utf16Encode t ++ [0] ∧
    (create_process_hooked_wire s t pa ta ihd d si pinf).lpApplicationName
      = utf16Encode s ++ [0] ∧
    (create_process_hooked_wire s t pa ta ihd d si pinf).lpCommandLine
      = utf16Encode t ++ [0] ∧
    (create_process_hooked_wire s t pa ta ihd d si pinf).lpCurrentDirectory
      = utf16Encode d ++ [0] ∧
    blacklist_executable_wire s = utf16Encode s ++ [0] ∧
    add_skip_file_suffix_wire s = utf16Encode s ++ [0] ∧
    add_skip_directory_wire s = utf16Encode s ++ [0] ∧
    force_load_library_wire s t = (utf16Encode s ++ [0], utf16Encode t ++ [0]) :=
  ⟨rfl, rfl, rfl, rfl, rfl, rfl, rfl, rfl, rfl, rfl, rfl⟩

/-- C3 (counterexample): operations of this core do panic on bad input:
`set_process_delay` with a delay of 2^31 milliseconds hits the
`try_into().expect(...)` panic (modelled `none`), and `set_instance_name` on
a name containing U+0000 hits the `CString::new(...).expect(...)` panic. -/
theorem setters_panic_on_bad_input :
    set_process_delay 2147483648 = none ∧
    set_instance_name [Char.ofNat 0] = none := by
  constructor
  · simp [set_process_delay]
  · simp [set_instance_name, CString_new]

/-- C3 (amended): the widening-based operations never panic, but the
`Parameters` setters do: `set_instance_name` and `set_crash_dumps_path`
panic exactly when the string contains an interior U+0000, and
`set_process_delay` panics exactly when the millisecond count exceeds
2147483647 (the C `int` range); these conditions are panics, not returned
errors. -/
theorem setters_panic_conditions (name path : List Char) (millis : Nat) :
    (set_instance_name name = none ↔ Char.ofNat 0 ∈ name) ∧
    (set_crash_dumps_path path = none ↔ Char.ofNat 0 ∈ path) ∧
    (set_process_delay millis = none ↔ 2147483647 < millis) := by
  refine ⟨?_, ?_, ?_⟩
  · by_cases h : Char.ofNat 0 ∈ name <;>
      simp [set_instance_name, CString_new, h]
  · by_cases h : Char.ofNat 0 ∈ path <;>
      simp [set_crash_dumps_path, CString_new, h]
  · by_cases h : millis ≤ 2147483647 <;> simp [set_process_delay, h]
    omega

/-- C4: the five link flags have exactly the values 0x1, 0x2, 0x4, 0x8,
0x10 — pairwise disjoint bits, hence combinable — and both link operations
forward the caller flags word to the engine unchanged. -/
theorem link_flags_values_and_forwarded (s t : List Char) (flags : Nat) :
    LINKFLAG_FAILIFEXISTS = 0x1 ∧
    LINKFLAG_MONITORCHANGES = 0x2 ∧
    LINKFLAG_CREATETARGET = 0x4 ∧
    LINKFLAG_RECURSIVE = 0x8 ∧
    LINKFLAG_FAILIFSKIPPED = 0x10 ∧
    (virtually_link_file_wire s t flags).flags = flags ∧
    (virtually_link_directory_static_wire s t flags).flags = flags :=
  ⟨rfl, rfl, rfl, rfl, rfl, rfl, rfl⟩

/-- C5 (counterexample): the spawn interface carries no environment: at a
concrete call the engine receives the null environment pointer (`none`), so
a caller cannot supply an explicit environment through
`create_process_hooked`. -/
theorem create_process_hooked_env_null_cex :
    (create_process_hooked_wire [] [] 0 0 false [] 0 0).lpEnvironment = none :=
  rfl

/-- C5 (amended): `create_process_hooked` carries application path, command
line, security attributes for process and thread, inheritance flag and
working directory, but has no environment parameter: for every call the
engine receives a null environment pointer (parent environment inherited)
and creation flags 0; the caller cannot supply an explicit environment. -/
theorem create_process_hooked_no_environment (s t d : List Char)
    (pa ta si pinf : Nat) (ihd : Bool) :
    (create_process_hooked_wire s t pa ta ihd d si pinf).lpEnvironment = none ∧
    (create_process_hooked_wire s t pa ta ihd d si pinf).dwCreationFlags = 0 ∧
    (create_process_hooked_wire s t pa ta ihd d si pinf).bInheritHandles = ihd ∧
    (create_process_hooked_wire s t pa ta ihd d si pinf).lpApplicationName = widen s ∧
    (create_process_hooked_wire s t pa ta ihd d si pinf).lpCommandLine = widen t ∧
    (create_process_hooked_wire s t pa ta ihd d si pinf).lpCurrentDirectory = widen d ∧
    (create_process_hooked_wire s t pa ta ihd d si pinf).lpProcessAttributes = pa ∧
    (create_process_hooked_wire s t pa ta ihd d si pinf).lpThreadAttributes = ta :=
  ⟨rfl, rfl, rfl, rfl, rfl, rfl, rfl, rfl⟩

/-- C6: after a successful create_vfs the Mapping Store is empty regardless
of the prior state, and the outcome of create_vfs depends only on the engine
verdict, never on the prior session state — a previously connected session
is silently disconnected rather than causing an error. -/
theorem create_vfs_resets_mapping_store (ok : Bool) (st : EngineState) :
    (create_vfs true st).2.mappings = [] ∧
    (create_vfs ok st).1 = (if ok then Except.ok () else Except.error ()) := by
  constructor
  · rfl
  · cases ok <;> rfl

/-- C7: disconnect_vfs is idempotent and never an error: it returns unit in
every state, and a second call leaves the entire state exactly as the first
call left it. -/
theorem disconnect_vfs_idempotent (st : EngineState) :
    disconnect_vfs ((disconnect_vfs st).2) = disconnect_vfs st ∧
    (disconnect_vfs st).1 = () :=
  ⟨rfl, rfl⟩

/-- C8: the wire call of create_vfs_dump is independent of the destination
buffer length — the engine receives only the base pointer and the separate
size pointer — and an engine writing the size-pointer value of bytes from
the base stays inside the buffer exactly when that value does not exceed the
buffer length, a precondition only the caller can maintain. -/
theorem create_vfs_dump_length_not_transmitted
    (a l₁ l₂ szp l sz : Nat) :
    create_vfs_dump_wire a l₁ szp = create_vfs_dump_wire a l₂ szp ∧
    ((∀ x ∈ dumpWriteAddrs a sz, x ∈ bufferAddrs a l) ↔ sz ≤ l) := by
  constructor
  · rfl
  · constructor
    · intro h
      by_contra hlt
      push_neg at hlt
      have hx : a + l ∈ dumpWriteAddrs a sz := by
        simp only [dumpWriteAddrs, List.mem_map, List.mem_range]
        exact ⟨l, hlt, rfl⟩
      have hmem := h _ hx
      simp only [bufferAddrs, List.mem_map, List.mem_range] at hmem
      obtain ⟨i, hi, he⟩ := hmem
      omega
    · intro hle x hx
      simp only [dumpWriteAddrs, List.mem_map, List.mem_range] at hx
      obtain ⟨i, hi, rfl⟩ := hx
      simp only [bufferAddrs, List.mem_map, List.mem_range]
      exact ⟨i, by omega, rfl⟩

/-- C9: get_log_message returns unit for every input, and the caller slice
length after the call is the original length: the size the engine writes
back lands in a dropped temporary, so neither the engine boolean nor the
actual message size is observable through the public interface. -/
theorem get_log_message_returns_unit (dstLen : Nat) (blocking engineOk : Bool)
    (engineSize : Nat) :
    get_log_message dstLen blocking engineOk engineSize = ((), dstLen) :=
  rfl

/-- C10: strings with an interior U+0000 are accepted by the widening
macros without error (the wire buffer still carries the full encoding plus
the appended terminator), but through the null-terminated wire format the
engine observes only the UTF-16 encoding of the prefix before the first
U+0000. Covers all twelve marshaled strings of the seven widen-marshaled
operations. -/
theorem widen_truncates_at_interior_null (s t d : List Char) (flags : Nat)
    (pa ta si pinf : Nat) (ihd : Bool) :
    (blacklist_executable_wire s).length = (utf16Encode s).length + 1 ∧
    observedByEngine ((virtually_link_file_wire s t flags).source)
      = utf16Encode (s.takeWhile (fun c => c.toNat != 0)) ∧
    observedByEngine ((virtually_link_file_wire s t flags).destination)
      = utf16Encode (t.takeWhile (fun c => c.toNat != 0)) ∧
    observedByEngine ((virtually_link_directory_static_wire s t flags).source)
      = utf16Encode (s.takeWhile (fun c => c.toNat != 0)) ∧
    observedByEngine ((virtually_link_directory_static_wire s t flags).destination)
      = utf16Encode (t.takeWhile (fun c => c.toNat != 0)) ∧
    observedByEngine ((create_process_hooked_wire s t pa ta ihd d si pinf).lpApplicationName)
      = utf16Encode (s.takeWhile (fun c => c.toNat != 0)) ∧
    observedByEngine ((create_process_hooked_wire s t pa ta ihd d si pinf).lpCommandLine)
      = utf16Encode (t.takeWhile (fun c => c.toNat != 0)) ∧
    observedByEngine ((create_process_hooked_wire s t pa ta ihd d si pinf).lpCurrentDirectory)
      = utf16Encode (d.takeWhile (fun c => c.toNat != 0)) ∧
    observedByEngine (blacklist_executable_wire s)
      = utf16Encode (s.takeWhile (fun c => c.toNat != 0)) ∧
    observedByEngine (add_skip_file_suffix_wire s)
      = utf16Encode (s.takeWhile (fun c => c.toNat != 0)) ∧
    observedByEngine (add_skip_directory_wire s)
      = utf16Encode (s.takeWhile (fun c => c.toNat != 0)) ∧
    observedByEngine ((force_load_library_wire s t).1)
      = utf16Encode (s.takeWhile (fun c => c.toNat != 0)) ∧
    observedByEngine ((force_load_library_wire s t).2)
      = utf16Encode (t.takeWhile (fun c => c.toNat != 0)) := by
  refine ⟨?_, ?_, ?_, ?_, ?_, ?_, ?_, ?_, ?_, ?_, ?_, ?_, ?_⟩
  · simp [blacklist_executable_wire, widen]
  · exact observedByEngine_widen s
  · exact observedByEngine_widen t
  · exact observedByEngine_widen s
  · exact observedByEngine_widen t
  · exact observedByEngine_widen s
  · exact observedByEngine_widen t
  · exact observedByEngine_widen d
  · exact observedByEngine_widen s
  · exact observedByEngine_widen s
  · exact observedByEngine_widen s
  · exact observedByEngine_widen s
  · exact observedByEngine_widen t

end UsvfsRs
